import Mathlib

set_option maxRecDepth 20000

/-!
Verification of the HiveQL notebook kernel (`src/hiveql/kernel.py`) against
its natural-language specification.  The kernel is embedded shallowly:
Python string manipulation is modelled over the character list of a Lean
`String`, the mutable session fields of `HiveQLKernel` become an explicit
state record, stream messages become an explicit message list, and the
external database layer (sqlalchemy / pandas) is a parameter.  The helper
module `tool_sql.py` is not part of the sources; its functions are modelled
from the specification and marked as such.
-/

namespace HiveQL

/-! ## Python-style string primitives

Defined over `String.data` so that proofs can proceed by structural
induction on character lists. -/

/-- The whitespace characters stripped by Python `str.strip()`. -/
def pyWS (c : Char) : Bool :=
  c = ' ' || c = '\t' || c = '\n' || c = '\r' || c = '\x0b' || c = '\x0c'

def trimL (l : List Char) : List Char := l.dropWhile pyWS

def trimR (l : List Char) : List Char := (l.reverse.dropWhile pyWS).reverse

/-- Python `str.strip()`. -/
def pyStrip (s : String) : String := ⟨trimR (trimL s.data)⟩

/-- Holds when `p` is a leading segment of `l`. -/
def listPre : List Char → List Char → Bool
  | [], _ => true
  | _ :: _, [] => false
  | c :: cs, d :: ds => c = d && listPre cs ds

/-- Python `str.startswith(p)`. -/
def strStarts (s p : String) : Bool := listPre p.data s.data

/-- Python `str.endswith(p)`. -/
def strEnds (s p : String) : Bool := listPre p.data.reverse s.data.reverse

/-- Python single-character `str.split(sep)`; always returns at least one
    group, and empty groups are kept, exactly as in Python. -/
def splitCh (sep : Char) : List Char → List (List Char)
  | [] => [[]]
  | c :: rest =>
    match splitCh sep rest with
    | [] => [[]]
    | g :: gs => if c = sep then [] :: g :: gs else (c :: g) :: gs

def strSplitCh (sep : Char) (s : String) : List String :=
  (splitCh sep s.data).map (fun l => ⟨l⟩)

/-- Python `str.replace("$", "")`: remove every dollar sign. -/
def removeDollar (s : String) : String := ⟨s.data.filter (fun c => c ≠ '$')⟩

/-- Python `str.lower()` (ASCII case folding is all the kernel needs). -/
def strLower (s : String) : String := ⟨s.data.map Char.toLower⟩

/-- Python `s[:-1]`. -/
def dropLast1 (s : String) : String := ⟨s.data.dropLast⟩

/-- A single-quote character, kept out of string literals. -/
def sq : String := ⟨[Char.ofNat 39]⟩

/-! ## Python `int(...)` -/

def digitVal (c : Char) : Nat := c.toNat - '0'.toNat

/-- Digits of an integer literal after the first one; Python allows single
    underscores between digits. -/
def pyDigitsAux : List Char → Nat → Option Nat
  | [], acc => some acc
  | '_' :: c :: rest, acc =>
    if c.isDigit then pyDigitsAux rest (acc * 10 + digitVal c) else none
  | ['_'], _ => none
  | c :: rest, acc =>
    if c.isDigit then pyDigitsAux rest (acc * 10 + digitVal c) else none

def pyDigits : List Char → Option Nat
  | [] => none
  | c :: rest => if c.isDigit then pyDigitsAux rest (digitVal c) else none

/-- Python `int(s)` on a string: `none` when a `ValueError` would be raised.
    Surrounding whitespace is ignored and an optional sign may precede the
    digits. -/
def pyIntOfString (s : String) : Option Int :=
  match trimR (trimL s.data) with
  | '+' :: rest => (pyDigits rest).map (fun n => (n : Int))
  | '-' :: rest => (pyDigits rest).map (fun n => -(n : Int))
  | l => (pyDigits l).map (fun n => (n : Int))

/-! ## Values, dictionaries, exceptions -/

/-- A Python value appearing as a directive value: a string, an `int`, or a
    JSON object.  JSON objects are kept abstract and identified by their
    source text (the kernel only forwards them to the connection factory). -/
inductive HVal where
  | str (s : String)
  | int (n : Int)
  | jobj (raw : String)
deriving Repr, DecidableEq

deriving instance DecidableEq for Except

abbrev Headers := List (String × HVal)

/-- Python dict update `d[k] = v`; insertion order is preserved and updating
    an existing key keeps its position, as in CPython. -/
def dictInsert (d : Headers) (k : String) (v : HVal) : Headers :=
  if d.any (fun kv => kv.1 = k) then
    d.map (fun kv => if kv.1 = k then (k, v) else kv)
  else d ++ [(k, v)]

/-- Python `d[k]` / `d.get(k)`. -/
def dictGet (d : Headers) (k : String) : Option HVal :=
  (d.find? (fun kv => kv.1 = k)).map (fun kv => kv.2)

/-- Python `k in d`. -/
def dictMem (d : Headers) (k : String) : Bool := d.any (fun kv => kv.1 = k)

/-- The exceptions that can cross function boundaries in `kernel.py`. -/
inductive PyExc where
  | kernelSyntaxError (msg : String)
  | connectionNotCreated
  | valueError (msg : String)
  | typeError (msg : String)
  | operationalError (msg : String)
  | resourceClosedError (msg : String)
  | multipleQueriesError
  | notAllowedQueriesError
  | nameError (msg : String)
deriving Repr, DecidableEq

/-! ## Session state, messages -/

/-- Abstraction of a sqlalchemy engine produced by
    `create_engine(url, **kwargs)`. -/
structure Conn where
  url : String
  kwargs : Headers
deriving Repr, DecidableEq

/-- The mutable session fields of `HiveQLKernel`: the connection handle,
    the two recognised parameters (`params` dict), and the default
    configuration loaded once from the config file (`conf`). -/
structure KState where
  last_conn : Option Conn
  default_limit : Int
  display_mode : String
  conf : Option Headers
deriving Repr, DecidableEq

inductive Chan where
  | stdout
  | stderr
  | execute_result
deriving Repr, DecidableEq

/-- One message sent over the iopub socket. -/
structure Msg where
  chan : Chan
  text : String
deriving Repr, DecidableEq

def infoMsg (t : String) : Msg := ⟨.stdout, t⟩
def errMsg (t : String) : Msg := ⟨.stderr, t⟩

/-- The long-form configuration usage hint: the `error_con_not_created`
    constant of `kernel.py`, which is the message text of the
    `ConnectionNotCreated` exception. -/
def error_con_not_created : String :=
  "Connection not initialized!\nPlease specify your pyHive configuration like this :\n\n-------------\n$$ url=hive://<kerberos-username>@<hive-host>:<hive-port>/<db-name>\n$$ connect_args=\x7b\"auth\": \"KERBEROS\",\"kerberos_service_name\": \"hive\"\x7d\n$$ pool_size=5\n$$ max_overflow=10\n\nYOUR SQL REQUEST HERE IF ANY\n-------------\n\n-> if you want to update the current connection, just type it again with another configuration\n-> $$ are mandatory characters that specify that this line is a configuration for this kernel\n\nOther parameters are available such as :\n\n$$ default_limit=50 # -> without this parameter, default_limit is set to 20\n$$ display_mode=be # -> this will display a table with the beginning (b) and end (e) of the SQL response (options are: b, e and be)\n\n"

/-- Python `str(e)` for the exceptions of the model. -/
def pyStr : PyExc → String
  | .kernelSyntaxError m => m
  | .connectionNotCreated => error_con_not_created
  | .valueError m => m
  | .typeError m => m
  | .operationalError m => m
  | .resourceClosedError m => m
  | .multipleQueriesError => "MultipleQueriesError"
  | .notAllowedQueriesError => "NotAllowedQueriesError"
  | .nameError m => m

/-- Abstraction of `traceback.format_exc()`: the stack-trace text available
    while the exception is being handled. -/
def format_exc (e : PyExc) : String :=
  "Traceback (most recent call last):\n  ...\n" ++ pyStr e

/-! ## `HiveQLKernel.reconfigure` -/

/-- The python builtin `int(v)` on a directive value: an `int` passes
    through, a string is parsed (`ValueError` on failure), and a dict makes
    `int()` raise `TypeError` (which `reconfigure` does not catch). -/
def intErrMsg (s : String) : String :=
  "invalid literal for int() with base 10: " ++ s

def intTypeErrMsg : String :=
  "int() argument must be a string, a bytes-like object or a real number, not dict"

def pyIntBuiltin : HVal → Except PyExc Int
  | .int n => .ok n
  | .str s =>
    match pyIntOfString s with
    | some n => .ok n
    | none => .error (.valueError (intErrMsg s))
  | .jobj _ => .error (.typeError intTypeErrMsg)

def setLimitMsg (n : Int) : String :=
  "Set display limit to " ++ toString n ++ "\n"

def invalidDisplayMsg : String := "Invalid display_mode, options are b, e and be."

/-- The `default_limit` block of `reconfigure`: `int()` is attempted, a
    `ValueError` is caught and reported via `send_exception` (message plus
    stack trace on stderr), any other exception propagates. -/
def reconfigureLimit (st : KState) (params : Headers) :
    List Msg × Except PyExc KState :=
  match dictGet params "default_limit" with
  | none => ([], .ok st)
  | some v =>
    match pyIntBuiltin v with
    | .ok n => ([infoMsg (setLimitMsg n)], .ok { st with default_limit := n })
    | .error (.valueError m) =>
        ([errMsg (pyStr (.valueError m) ++ "\n" ++ format_exc (.valueError m))],
         .ok st)
    | .error e => ([], .error e)

/-- The `display_mode` block of `reconfigure`: the value must be a string
    among "b", "e", "be"; otherwise an error message is sent and the stored
    value is kept. -/
def reconfigureDisplay (st : KState) (params : Headers) : List Msg × KState :=
  match dictGet params "display_mode" with
  | none => ([], st)
  | some (.str s) =>
    if s = "b" || s = "e" || s = "be" then ([], { st with display_mode := s })
    else ([errMsg invalidDisplayMsg], st)
  | some _ => ([errMsg invalidDisplayMsg], st)

/-- Model of `HiveQLKernel.reconfigure`. -/
def reconfigure (st : KState) (params : Headers) :
    List Msg × Except PyExc KState :=
  match reconfigureLimit st params with
  | (msgs, .error e) => (msgs, .error e)
  | (msgs, .ok st1) =>
    match reconfigureDisplay st1 params with
    | (msgs2, st2) => (msgs ++ msgs2, .ok st2)

/-! ## `HiveQLKernel.parse_code` -/

/-- Abstraction of `json.loads` on texts that begin with a brace (external
    library; failures on malformed JSON text are not modelled, the object is
    identified by its source text). -/
def json_loads (s : String) : HVal := .jobj s

/-- Value parsing for one directive: JSON object when the value starts with
    a brace, else an integer when `int()` succeeds, else the string. -/
def parseValue (v : String) : HVal :=
  if strStarts v "\x7b" then json_loads v
  else
    match pyIntOfString v with
    | some n => .int n
    | none => .str v

def syntaxErrMsg : String :=
  "Headers starting with %% must be at the beginning of your request."

def unpackErrMsg : String := "values to unpack"

/-- One `$$` directive line: `l.replace("$", "").split("=")` must produce
    exactly a key and a value, otherwise tuple unpacking raises
    `ValueError`; both parts are stripped and the value is parsed. -/
def parseDirective (l : String) : Except PyExc (String × HVal) :=
  match strSplitCh '=' (removeDollar l) with
  | [k, v] => .ok (pyStrip k, parseValue (pyStrip v))
  | _ => .error (.valueError unpackErrMsg)

/-- The line loop of `parse_code`: each line is stripped; a `$$` line is a
    directive, legal only while `beginning` is still true; any other line
    (including blank and `--` comment lines) clears `beginning`, and
    non-comment lines are appended to the SQL text. -/
def parseLines : List String → Bool → Headers → String →
    Except PyExc (Headers × String)
  | [], _, headers, sqlReq => .ok (headers, sqlReq)
  | l0 :: rest, beginning, headers, sqlReq =>
    let l := pyStrip l0
    if strStarts l "$$" then
      if beginning then
        match parseDirective l with
        | .ok (k, v) => parseLines rest beginning (dictInsert headers k v) sqlReq
        | .error e => .error e
      else .error (.kernelSyntaxError syntaxErrMsg)
    else
      parseLines rest false headers
        (if strStarts l "--" then sqlReq else sqlReq ++ " " ++ l)

def sessionKeys : List String := ["default_limit", "display_mode"]

/-- Strip one trailing semicolon, as `parse_code` does. -/
def stripSemi (s : String) : String :=
  if strEnds s ";" then dropLast1 s else s

/-- The successful result of `parse_code`: the state after `reconfigure`,
    the connection arguments, and the SQL body. -/
structure ParseOut where
  st : KState
  pyhiveconf : Headers
  sql : String
deriving Repr, DecidableEq

/-- Model of `HiveQLKernel.parse_code`: strip the cell, run the line loop, substitute
    the default configuration when there is no connection and no directives,
    strip the SQL body and one trailing semicolon, partition the directives
    into session parameters and connection arguments, and apply
    `reconfigure`. -/
def parse_code (st : KState) (code : String) :
    List Msg × Except PyExc ParseOut :=
  match parseLines (strSplitCh '\n' (pyStrip code)) true [] "" with
  | .error e => ([], .error e)
  | .ok (headers0, sqlRaw) =>
    let headers :=
      if st.last_conn.isNone && headers0.isEmpty && st.conf.isSome then
        st.conf.getD []
      else headers0
    let sqlReq := stripSemi (pyStrip sqlRaw)
    let params := headers.filter (fun kv => sessionKeys.contains kv.1)
    let pyhiveconf := headers.filter (fun kv => !sessionKeys.contains kv.1)
    match reconfigure st params with
    | (msgs, .ok st1) => (msgs, .ok ⟨st1, pyhiveconf, sqlReq⟩)
    | (msgs, .error e) => (msgs, .error e)

/-! ## Statement classifier and rewriter

`tool_sql.py` is not among the sources; the functions below are modelled
from the specification (spec sections 4.3 and 8). -/

/-- Modelled from the spec: case-insensitive leading-keyword matching used
    by each classifier of the missing `tool_sql.py` (spec section 4.3). -/
def sqlKw (s kw : String) : Bool := strStarts (strLower s) kw

def sql_is_create (s : String) : Bool := sqlKw s "create"
def sql_is_drop (s : String) : Bool := sqlKw s "drop"
def sql_is_use (s : String) : Bool := sqlKw s "use"
def sql_is_show (s : String) : Bool := sqlKw s "show"
def sql_is_show_tables (s : String) : Bool := sqlKw s "show tables"
def sql_is_show_databases (s : String) : Bool := sqlKw s "show databases"
def sql_is_set_variable (s : String) : Bool := sqlKw s "set"
def sql_is_describe (s : String) : Bool := sqlKw s "describe"

/-- Modelled from the spec: a tabular query is a SELECT or WITH statement
    (spec sections 4.3 and 8). -/
def sql_is_tabular (s : String) : Bool := sqlKw s "select" || sqlKw s "with"

/-- Modelled from the spec: `sql_remove_comment` of the missing
    `tool_sql.py` strips the `--`-prefixed comment content, leaving a
    trimmed statement (spec section 4.3). -/
def cutComment : List Char → List Char
  | [] => []
  | '-' :: '-' :: _ => []
  | c :: rest => c :: cutComment rest

def sql_remove_comment (s : String) : String := pyStrip ⟨cutComment s.data⟩

/-- Modelled from the spec: `sql_validate` of the missing `tool_sql.py`
    raises `MultipleQueriesError` when several semicolon-separated
    statements are present outside the SET case, and
    `NotAllowedQueriesError` when the leading keyword is not in the
    allow-list (spec section 4.3). -/
def sql_allowed (s : String) : Bool :=
  sql_is_tabular s || sql_is_set_variable s || sql_is_create s ||
  sql_is_drop s || sql_is_use s || sql_is_show_databases s ||
  sql_is_show_tables s || sql_is_describe s

def sql_validate (s : String) : Except PyExc Unit :=
  if (strSplitCh ';' s).length > 1 && !sql_is_set_variable s then
    .error .multipleQueriesError
  else if sql_allowed s then .ok () else .error .notAllowedQueriesError

/-- The fixed alias used by the row-limit rewrite. -/
def rewriteAlias : String := "tmp"

/-- Modelled from the spec: `sql_rewrite` of the missing `tool_sql.py`
    wraps a tabular (SELECT/WITH) statement with a positive limit as
    `select * from (<original>) <alias> limit N` and leaves every other
    statement, and every statement under limit 0, unchanged (spec
    sections 4.3 and 8). -/
def sql_rewrite (s : String) (limit : Int) : String :=
  if sql_is_tabular s && limit > 0 then
    "select * from (" ++ s ++ ") " ++ rewriteAlias ++ " limit " ++
      toString limit
  else s

/-- Modelled from the spec: `extract_show_pattern` of the missing
    `tool_sql.py` extracts the quoted pattern of a
    `SHOW ... LIKE <pattern>` statement (spec section 4.3). -/
def extract_show_pattern (s : String) : String :=
  match strSplitCh (Char.ofNat 39) s with
  | _ :: p :: _ => p
  | _ => ""

/-! ## The external database layer -/

/-- Opaque model of a pandas data frame returned by the external layer. -/
abbrev Df := String

/-- Modelled external rendering `df_to_html` (pandas `to_html` after
    `fillna` and `astype`; out of scope per the spec). -/
def df_to_html (df : Df) : String := "<table>" ++ df ++ "</table>"

/-- Modelled external pandas row filter `df[df.<col>.str.contains(pat)]`. -/
def dfFilter (df : Df) (col pat : String) : Df :=
  "filtered(" ++ col ++ ", " ++ pat ++ ", " ++ df ++ ")"

/-- Behaviour of the external connectivity layer: whether `connect()` on a
    fresh engine raises, what `engine.execute(sql)` raises, and what
    `pd.read_sql(sql, conn)` produces. -/
structure Env where
  connectErr : Conn → Option PyExc
  execErr : Conn → String → Option PyExc
  readRes : Conn → String → Except PyExc Df

/-! ## `HiveQLKernel.create_conn` -/

def echoKwarg : String × HVal → String
  | (k, .str s) => k ++ "=" ++ s
  | (k, .int n) => k ++ "=" ++ toString n
  | (k, .jobj r) => k ++ "=" ++ r

def joinWith (sep : String) : List String → String
  | [] => ""
  | [x] => x
  | x :: y :: xs => x ++ sep ++ joinWith sep (y :: xs)

/-- The informational echo of the connection construction call. -/
def echoText (url : String) (kwargs : Headers) : String :=
  "create_engine(" ++ sq ++ url ++ sq ++ ", " ++
    joinWith ", " (kwargs.map echoKwarg) ++ ")\n"

def connEstablishedMsg : String := "Connection established to database!\n"

/-- Model of `HiveQLKernel.create_conn`: echo the construction call, replace the
    stored handle with the freshly created engine, then probe it with
    `connect()`; a probe failure propagates after the handle was already
    replaced. -/
def create_conn (env : Env) (st : KState) (url : String) (kwargs : Headers) :
    List Msg × KState × Except PyExc Unit :=
  let echo := infoMsg (echoText url kwargs)
  let conn : Conn := ⟨url, kwargs⟩
  let st1 := { st with last_conn := some conn }
  match env.connectErr conn with
  | none => ([echo, infoMsg connEstablishedMsg], st1, .ok ())
  | some e => ([echo], st1, .error e)

/-! ## `HiveQLKernel.do_execute` -/

/-- The response envelope returned by `do_execute`. -/
structure Envelope where
  status : String
  execution_count : Nat
  payload : List String
  user_expressions : List (String × String)
deriving Repr, DecidableEq

def okEnvelope (ec : Nat) : Envelope := ⟨"ok", ec, [], []⟩
def errEnvelope (ec : Nat) : Envelope := ⟨"error", ec, [], []⟩

/-- The outcome of the `try:` body of `do_execute`: the session state so
    far, the messages sent, the SQL statements handed to the connection,
    and either an envelope or the exception that reached the `except`
    clauses. -/
structure Step where
  st : KState
  msgs : List Msg
  execs : List String
  res : Except PyExc Envelope
deriving Repr, DecidableEq

/-- The SET-variable loop: `for s in sql_req.split(";"):
    self.last_conn.execute(s.strip())`; returns the statements attempted
    and the first failure. -/
def execList (env : Env) (c : Conn) : List String → List String × Option PyExc
  | [] => ([], none)
  | s :: rest =>
    match env.execErr c s with
    | some e => ([s], some e)
    | none =>
      match execList env c rest with
      | (ss, r) => (s :: ss, r)

def tableCreatedMsg : String := "Table created!"
def tableDroppedMsg : String := "Table dropped!"
def dbChangedMsg : String := "Database changed!"
def varsSetMsg : String := "variables set!"

/-- The body of the `try:` block of `do_execute`. -/
def do_execute_try (env : Env) (st : KState) (ec : Nat) (code : String) :
    Step :=
  match parse_code st code with
  | (msgs, .error e) => ⟨st, msgs, [], .error e⟩
  | (msgs, .ok po) =>
    let afterConn : List Msg × KState × Except PyExc Unit :=
      match dictGet po.pyhiveconf "url" with
      | some (.str u) =>
          create_conn env po.st u
            (po.pyhiveconf.filter (fun kv => kv.1 ≠ "url"))
      | some _ =>
          ([], po.st, .error (.typeError "can only concatenate str (not other) to str"))
      | none => ([], po.st, .ok ())
    match afterConn with
    | (ms2, st2, .error e) => ⟨st2, msgs ++ ms2, [], .error e⟩
    | (ms2, st2, .ok _) =>
      match st2.last_conn with
      | none => ⟨st2, msgs ++ ms2, [], .error .connectionNotCreated⟩
      | some conn =>
        if po.sql = "" then ⟨st2, msgs ++ ms2, [], .ok (okEnvelope ec)⟩
        else
          let sqlReq := sql_remove_comment po.sql
          match sql_validate sqlReq with
          | .error e => ⟨st2, msgs ++ ms2, [], .error e⟩
          | .ok _ =>
            let sqlStr := sql_rewrite sqlReq st2.default_limit
            if sql_is_create sqlReq then
              match env.execErr conn sqlStr with
              | some e => ⟨st2, msgs ++ ms2, [sqlStr], .error e⟩
              | none =>
                  ⟨st2, msgs ++ ms2 ++ [infoMsg tableCreatedMsg], [sqlStr],
                   .ok (okEnvelope ec)⟩
            else if sql_is_drop sqlReq then
              match env.execErr conn sqlStr with
              | some e => ⟨st2, msgs ++ ms2, [sqlStr], .error e⟩
              | none =>
                  ⟨st2, msgs ++ ms2 ++ [infoMsg tableDroppedMsg], [sqlStr],
                   .ok (okEnvelope ec)⟩
            else if sql_is_use sqlReq then
              match env.execErr conn sqlStr with
              | some e => ⟨st2, msgs ++ ms2, [sqlStr], .error e⟩
              | none =>
                  ⟨st2, msgs ++ ms2 ++ [infoMsg dbChangedMsg], [sqlStr],
                   .ok (okEnvelope ec)⟩
            else if sql_is_set_variable sqlReq then
              match execList env conn ((strSplitCh ';' sqlReq).map pyStrip) with
              | (ss, some e) => ⟨st2, msgs ++ ms2, ss, .error e⟩
              | (ss, none) =>
                  ⟨st2, msgs ++ ms2 ++ [infoMsg varsSetMsg], ss,
                   .ok (okEnvelope ec)⟩
            else
              match env.readRes conn sqlStr with
              | .error e => ⟨st2, msgs ++ ms2, [sqlStr], .error e⟩
              | .ok df =>
                let htmlRes : Except PyExc String :=
                  if sql_is_show sqlReq then
                    if sql_is_show_tables sqlReq then
                      .ok (df_to_html
                        (dfFilter df "tab_name" (extract_show_pattern sqlReq)))
                    else if sql_is_show_databases sqlReq then
                      .ok (df_to_html
                        (dfFilter df "database_name"
                          (extract_show_pattern sqlReq)))
                    else .error (.nameError "name html is not defined")
                  else .ok (df_to_html df)
                match htmlRes with
                | .error e => ⟨st2, msgs ++ ms2, [sqlStr], .error e⟩
                | .ok html =>
                    ⟨st2, msgs ++ ms2 ++ [⟨.execute_result, html⟩], [sqlStr],
                     .ok (okEnvelope ec)⟩

/-- The text of the allow-list error message (`kernel.py` line 220). -/
def notAllowedMsg : String :=
  "only " ++ sq ++ "select" ++ sq ++ ", " ++ sq ++ "with" ++ sq ++ ", " ++
  sq ++ "set property=value" ++ sq ++ ", " ++
  sq ++ "create table x.y stored as orc" ++ sq ++ " " ++
  sq ++ "drop table" ++ sq ++ ", " ++ sq ++ "use database" ++ sq ++ ", " ++
  sq ++ "show databases" ++ sq ++ ", " ++ sq ++ "show tables" ++ sq ++ ", " ++
  sq ++ "describe myTable" ++ sq ++ " statements are allowed"

/-- The stderr text produced by the `except` clauses of `do_execute`:
    the four specific handlers send a plain message; every other exception
    goes through `send_exception`, which appends the stack trace unless the
    exception is `ConnectionNotCreated`. -/
def excMessage : PyExc → String
  | .operationalError m => m
  | .resourceClosedError m => m
  | .multipleQueriesError => "Only one query per cell!"
  | .notAllowedQueriesError => notAllowedMsg
  | .connectionNotCreated => error_con_not_created
  | e => pyStr e ++ "\n" ++ format_exc e

/-- The overall outcome of `do_execute`. -/
structure ExecOut where
  st : KState
  msgs : List Msg
  execs : List String
  envelope : Envelope
deriving Repr, DecidableEq

/-- Model of `HiveQLKernel.do_execute`: run the body; any exception is converted
    into one stderr message plus an error envelope. -/
def do_execute (env : Env) (st : KState) (ec : Nat) (code : String) :
    ExecOut :=
  match do_execute_try env st ec code with
  | ⟨st1, msgs, execs, .ok envl⟩ => ⟨st1, msgs, execs, envl⟩
  | ⟨st1, msgs, execs, .error e⟩ =>
      ⟨st1, msgs ++ [errMsg (excMessage e)], execs, errEnvelope ec⟩

/-! ## Shared lemmas and witness fixtures -/

/-- A fresh session: no connection, default parameters, no config file. -/
def stA : KState := ⟨none, 20, "be", none⟩

/-- A benign external layer: every probe succeeds, every statement runs. -/
def envW : Env := ⟨fun _ => none, fun _ _ => none, fun _ _ => .ok "df"⟩

/-- Two leading segments of the same list are comparable. -/
theorem listPre_comparable (l : List Char) :
    ∀ p q : List Char, listPre p l = true → listPre q l = true →
      (listPre p q || listPre q p) = true := by
  induction l with
  | nil =>
    intro p q hp _
    cases p with
    | nil => simp [listPre]
    | cons c cs => simp [listPre] at hp
  | cons d ds ih =>
    intro p q hp hq
    cases p with
    | nil => simp [listPre]
    | cons a as =>
      cases q with
      | nil => simp [listPre]
      | cons b bs =>
        simp only [listPre, Bool.and_eq_true, decide_eq_true_eq] at hp hq
        obtain ⟨ha, hp2⟩ := hp
        obtain ⟨hb, hq2⟩ := hq
        subst ha; subst hb
        simpa [listPre] using ih as bs hp2 hq2

/-- Two keyword prefixes of the same statement cannot be incomparable. -/
theorem sqlKw_conflict (s kw1 kw2 : String) (h1 : sqlKw s kw1 = true)
    (h2 : sqlKw s kw2 = true)
    (hcon : (listPre kw1.data kw2.data || listPre kw2.data kw1.data) = false) :
    False := by
  have h := listPre_comparable (strLower s).data kw1.data kw2.data h1 h2
  rw [hcon] at h
  exact Bool.noConfusion h

/-- A statement whose keyword is incomparable with both `select` and `with`
    is not tabular. -/
theorem tabular_conflict (s kw : String) (h : sqlKw s kw = true)
    (hc1 : (listPre kw.data "select".data ||
            listPre "select".data kw.data) = false)
    (hc2 : (listPre kw.data "with".data ||
            listPre "with".data kw.data) = false) :
    sql_is_tabular s = false := by
  cases htab : sql_is_tabular s with
  | false => rfl
  | true =>
    exfalso
    simp only [sql_is_tabular, Bool.or_eq_true] at htab
    rcases htab with hs | hw
    · exact sqlKw_conflict s kw "select" h hs hc1
    · exact sqlKw_conflict s kw "with" h hw hc2

/-- C1: for a SELECT/WITH statement and a positive `default_limit` N the
    rewrite produces exactly `select * from (<original>) <alias> limit N`
    with the fixed alias; with `default_limit` 0 no wrapping occurs; and
    CREATE/DROP/USE/SET/SHOW statements are never limit-wrapped. -/
theorem C1_row_limit_rewrite (s : String) (n : Int) :
    (sql_is_tabular s = true → 0 < n →
      sql_rewrite s n =
        "select * from (" ++ s ++ ") " ++ rewriteAlias ++ " limit " ++
          toString n) ∧
    sql_rewrite s 0 = s ∧
    ((sql_is_create s || sql_is_drop s || sql_is_use s ||
      sql_is_set_variable s || sql_is_show s) = true →
      sql_rewrite s n = s) := by
  refine ⟨?_, ?_, ?_⟩
  · intro ht hn
    simp [sql_rewrite, ht, hn]
  · have h0 : (decide ((0 : Int) > 0)) = false := by decide
    simp [sql_rewrite, h0]
  · intro h
    have htab : sql_is_tabular s = false := by
      simp only [sql_is_create, sql_is_drop, sql_is_use, sql_is_set_variable,
        sql_is_show, Bool.or_eq_true] at h
      rcases h with ((((h | h) | h) | h) | h)
      · exact tabular_conflict s "create" h (by decide) (by decide)
      · exact tabular_conflict s "drop" h (by decide) (by decide)
      · exact tabular_conflict s "use" h (by decide) (by decide)
      · exact tabular_conflict s "set" h (by decide) (by decide)
      · exact tabular_conflict s "show" h (by decide) (by decide)
    simp [sql_rewrite, htab]

/-- Witness for C1 at a concrete SELECT statement and limit 5. -/
theorem C1_row_limit_rewrite_witness :
    sql_rewrite "select a from t" 5 =
      "select * from (" ++ "select a from t" ++ ") " ++ rewriteAlias ++
        " limit " ++ toString (5 : Int) :=
  (C1_row_limit_rewrite "select a from t" 5).1 (by decide) (by decide)

/-! ## C2: placement of directive lines -/

/-- The SQL text accumulated by the line loop over non-directive lines. -/
def sqlAccum : List String → String → String
  | [], sql => sql
  | l :: rest, sql =>
    sqlAccum rest
      (if strStarts (pyStrip l) "--" then sql else sql ++ " " ++ pyStrip l)

/-- Processing a block of non-directive lines never fails, touches no
    headers, accumulates SQL text, and clears `beginning` as soon as the
    block is non-empty. -/
theorem parseLines_append_nondir (pre : List String) :
    ∀ (ls : List String) (b : Bool) (h : Headers) (sql : String),
      (∀ l ∈ pre, strStarts (pyStrip l) "$$" = false) →
      parseLines (pre ++ ls) b h sql =
        parseLines ls (b && pre.isEmpty) h (sqlAccum pre sql) := by
  induction pre with
  | nil =>
    intro ls b h sql _
    simp [sqlAccum]
  | cons p pre ih =>
    intro ls b h sql hnd
    have hp : strStarts (pyStrip p) "$$" = false := hnd p (by simp)
    have hrest : ∀ l ∈ pre, strStarts (pyStrip l) "$$" = false :=
      fun l hl => hnd l (by simp [hl])
    simp only [List.cons_append, parseLines, hp, Bool.false_eq_true,
      if_false, List.isEmpty_cons, Bool.and_false]
    rw [show pre.append ls = pre ++ ls from rfl, ih ls false h _ hrest]
    simp [sqlAccum]

/-- A directive line reached with `beginning` already cleared raises the
    `KernelSyntaxError`. -/
theorem parseLines_directive_after (d : String) (rest : List String)
    (h : Headers) (sql : String) (hd : strStarts (pyStrip d) "$$" = true) :
    parseLines (d :: rest) false h sql =
      .error (.kernelSyntaxError syntaxErrMsg) := by
  simp [parseLines, hd]

/-- Whether a stripped directive line parses without raising. -/
def dirOk (l : String) : Bool :=
  match parseDirective l with
  | .ok _ => true
  | .error _ => false

/-- Processing a block of well-formed directive lines never fails, keeps
    `beginning` set, and only extends the headers. -/
theorem parseLines_append_dirs (dirs : List String) :
    ∀ (ls : List String) (h : Headers) (sql : String),
      (∀ l ∈ dirs, strStarts (pyStrip l) "$$" = true ∧
        dirOk (pyStrip l) = true) →
      ∃ h2, parseLines (dirs ++ ls) true h sql = parseLines ls true h2 sql := by
  induction dirs with
  | nil =>
    intro ls h sql _
    exact ⟨h, rfl⟩
  | cons l0 dirs ih =>
    intro ls h sql hds
    obtain ⟨hstart, hok⟩ := hds l0 (by simp)
    cases hpd : parseDirective (pyStrip l0) with
    | error e =>
      rw [dirOk, hpd] at hok
      exact absurd hok (by simp)
    | ok kv =>
      obtain ⟨k, v⟩ := kv
      obtain ⟨h2, ih2⟩ :=
        ih ls (dictInsert h k v) sql (fun l hl => hds l (by simp [hl]))
      refine ⟨h2, ?_⟩
      rw [show (l0 :: dirs) ++ ls = l0 :: (dirs ++ ls) from rfl]
      rw [show parseLines (l0 :: (dirs ++ ls)) true h sql =
          parseLines (dirs ++ ls) true (dictInsert h k v) sql by
        simp [parseLines, hstart, hpd]]
      exact ih2

/-- C2 (amended): a `$$` directive line is accepted only while every
    preceding line of the cell is itself a directive; any non-directive
    line — including a comment-only `--` line or a blank line — ends the
    directive region, and a directive following one fails with
    `KernelSyntaxError`, whatever accepted directives came before. -/
theorem C2_directive_after_nondirective (st : KState) (code : String)
    (dirs pre : List String) (d : String) (rest : List String)
    (hsplit : strSplitCh '\n' (pyStrip code) = dirs ++ (pre ++ d :: rest))
    (hdirs : ∀ l ∈ dirs, strStarts (pyStrip l) "$$" = true ∧
      dirOk (pyStrip l) = true)
    (hpre : pre ≠ [])
    (hnd : ∀ l ∈ pre, strStarts (pyStrip l) "$$" = false)
    (hd : strStarts (pyStrip d) "$$" = true) :
    parse_code st code = ([], .error (.kernelSyntaxError syntaxErrMsg)) := by
  obtain ⟨h2, hstep⟩ :=
    parseLines_append_dirs dirs (pre ++ d :: rest) [] "" hdirs
  have h1 := parseLines_append_nondir pre (d :: rest) true h2 "" hnd
  have h2e : pre.isEmpty = false := by
    cases pre with
    | nil => exact absurd rfl hpre
    | cons _ _ => rfl
  rw [h2e, Bool.and_false] at h1
  rw [parseLines_directive_after d rest h2 (sqlAccum pre "") hd] at h1
  unfold parse_code
  rw [hsplit, hstep, h1]

/-- Counterexample to C2 as stated: a directive preceded only by a
    comment-only `--` line is rejected, not accepted. -/
theorem C2_counterexample :
    parse_code stA "--x\n$$ a=1" =
      ([], .error (.kernelSyntaxError syntaxErrMsg)) := by decide

/-- Witness for C2 (amended): an accepted leading directive, then a SQL
    line, then a stray directive. -/
theorem C2_witness :
    parse_code stA "$$ url=hive://h\nselect 1\n$$ default_limit=5" =
      ([], .error (.kernelSyntaxError syntaxErrMsg)) :=
  C2_directive_after_nondirective stA
    "$$ url=hive://h\nselect 1\n$$ default_limit=5"
    ["$$ url=hive://h"] ["select 1"] "$$ default_limit=5" []
    (by decide) (by decide) (by decide) (by decide) (by decide)

/-! ## C3: default-configuration substitution -/

/-- C3: with no connection and a loaded default configuration, a cell with
    no directives is processed exactly like a cell that supplies the same
    configuration explicitly as `$$` directives (same SQL body assumed, as
    directives contribute nothing to it). -/
theorem C3_conf_substitution (st : KState) (c : Headers)
    (code code2 sqlRaw : String)
    (h1 : st.last_conn = none) (h2 : st.conf = some c) (hc : c ≠ [])
    (h3 : parseLines (strSplitCh '\n' (pyStrip code)) true [] "" =
      .ok ([], sqlRaw))
    (h4 : parseLines (strSplitCh '\n' (pyStrip code2)) true [] "" =
      .ok (c, sqlRaw)) :
    parse_code st code = parse_code st code2 := by
  have hce : c.isEmpty = false := by
    cases c with
    | nil => exact absurd rfl hc
    | cons _ _ => rfl
  unfold parse_code
  rw [h3, h4, h1, h2]
  simp [hce]

/-- Witness fixture for C3: a configuration holding only a url. -/
def confW : Headers := [("url", HVal.str "hive://h")]

def stC3 : KState := ⟨none, 20, "be", some confW⟩

/-- Witness for C3 at a concrete cell pair. -/
theorem C3_witness :
    parse_code stC3 "select 1" = parse_code stC3 "$$ url=hive://h\nselect 1" :=
  C3_conf_substitution stC3 confW "select 1" "$$ url=hive://h\nselect 1"
    " select 1" rfl rfl (by decide) (by decide) (by decide)

/-! ## C4: every exception is converted into an error envelope -/

set_option maxHeartbeats 2000000 in
/-- Every successful path of the `try:` body returns the fixed ok
    envelope. -/
theorem do_execute_try_ok (env : Env) (st : KState) (ec : Nat)
    (code : String) :
    ∀ envl, (do_execute_try env st ec code).res = .ok envl →
      envl = okEnvelope ec := by
  intro envl h
  unfold do_execute_try at h
  repeat'
    first
      | split at h
      | simp only [] at h
  all_goals
    first
      | exact Except.noConfusion h
      | exact (Except.ok.inj h).symm

/-- C4: `do_execute` always returns a status of "ok" or "error"; whenever
    the body raises, the result is the error envelope plus exactly one
    stderr message, whose text is the usage hint (no stack trace) for
    `ConnectionNotCreated` and the message followed by the stack trace for
    the exceptions reaching the generic handler. -/

theorem C4_errors_handled (env : Env) (st : KState) (ec : Nat)
    (code : String) :
    ((do_execute env st ec code).envelope.status = "ok" ∨
     (do_execute env st ec code).envelope.status = "error") ∧
    (∀ e, (do_execute_try env st ec code).res = .error e →
      (do_execute env st ec code).envelope = errEnvelope ec ∧
      (do_execute env st ec code).msgs =
        (do_execute_try env st ec code).msgs ++ [errMsg (excMessage e)] ∧
      (e = .connectionNotCreated → excMessage e = error_con_not_created) ∧
      (∀ m, (e = .kernelSyntaxError m ∨ e = .valueError m ∨
             e = .typeError m ∨ e = .nameError m) →
        excMessage e = pyStr e ++ "\n" ++ format_exc e)) := by
  constructor
  · unfold do_execute
    cases h : do_execute_try env st ec code with
    | mk st1 msgs execs res =>
      cases res with
      | ok envl =>
        have hok : envl = okEnvelope ec :=
          do_execute_try_ok env st ec code envl (by rw [h])
        left
        simp [hok, okEnvelope]
      | error e => right; simp [errEnvelope]
  · intro e he
    unfold do_execute
    cases h : do_execute_try env st ec code with
    | mk st1 msgs execs res =>
      rw [h] at he
      simp only at he
      subst he
      refine ⟨rfl, by simp [h], ?_, ?_⟩
      · intro hce; subst hce; rfl
      · intro m hm
        rcases hm with hm | hm | hm | hm
        all_goals subst hm
        all_goals rfl

/-- Witness for C4: a cell with no connection produces the error envelope. -/
theorem C4_witness :
    (do_execute envW stA 1 "select 1").envelope = errEnvelope 1 :=
  ((C4_errors_handled envW stA 1 "select 1").2 .connectionNotCreated
    (by decide)).1

/-! ## C5: the `default_limit` parameter -/

/-- The `display_mode` block never raises and never touches
    `default_limit`. -/
theorem reconfigureDisplay_limit (st : KState) (params : Headers) :
    (reconfigureDisplay st params).2.default_limit = st.default_limit := by
  unfold reconfigureDisplay
  repeat' split
  all_goals rfl

/-- Counterexample to C5 as stated: a JSON-object `default_limit` makes
    `int()` raise `TypeError`, which `reconfigure` does not catch, so
    `parse_code` does not return and the cell is aborted with no report
    from `reconfigure`. -/
theorem C5_counterexample :
    parse_code stA "$$ default_limit=\x7b\x7d" =
      ([], .error (.typeError intTypeErrMsg)) := by decide

/-- C5 (amended): an `int` value or an int-parsable string sets the
    session's `default_limit` (with an info message); a non-parsable string
    raises a `ValueError` that is caught and reported without aborting the
    cell; a JSON-object value raises a `TypeError` that propagates and
    aborts the cell. -/
theorem C5_default_limit (st : KState) (params : Headers) (v : HVal)
    (hv : dictGet params "default_limit" = some v) :
    (∀ n, v = .int n →
      reconfigureLimit st params =
        ([infoMsg (setLimitMsg n)], .ok { st with default_limit := n }) ∧
      ∃ st2 msgs2, reconfigure st params = (msgs2, .ok st2) ∧
        st2.default_limit = n) ∧
    (∀ s n, v = .str s → pyIntOfString s = some n →
      reconfigureLimit st params =
        ([infoMsg (setLimitMsg n)], .ok { st with default_limit := n }) ∧
      ∃ st2 msgs2, reconfigure st params = (msgs2, .ok st2) ∧
        st2.default_limit = n) ∧
    (∀ s, v = .str s → pyIntOfString s = none →
      reconfigureLimit st params =
        ([errMsg (pyStr (.valueError (intErrMsg s)) ++ "\n" ++
           format_exc (.valueError (intErrMsg s)))], .ok st) ∧
      ∃ st2 msgs2, reconfigure st params = (msgs2, .ok st2) ∧
        st2.default_limit = st.default_limit ∧
        errMsg (pyStr (.valueError (intErrMsg s)) ++ "\n" ++
          format_exc (.valueError (intErrMsg s))) ∈ msgs2) ∧
    (∀ j, v = .jobj j →
      reconfigure st params = ([], .error (.typeError intTypeErrMsg))) := by
  refine ⟨?_, ?_, ?_, ?_⟩
  · intro n hn
    subst hn
    have hl : reconfigureLimit st params =
        ([infoMsg (setLimitMsg n)], .ok { st with default_limit := n }) := by
      unfold reconfigureLimit
      rw [hv]
      rfl
    refine ⟨hl, ?_⟩
    unfold reconfigure
    rw [hl]
    exact ⟨_, _, rfl, reconfigureDisplay_limit _ _⟩
  · intro s n hs hparse
    subst hs
    have hl : reconfigureLimit st params =
        ([infoMsg (setLimitMsg n)], .ok { st with default_limit := n }) := by
      unfold reconfigureLimit
      rw [hv]
      simp [pyIntBuiltin, hparse]
    refine ⟨hl, ?_⟩
    unfold reconfigure
    rw [hl]
    exact ⟨_, _, rfl, reconfigureDisplay_limit _ _⟩
  · intro s hs hparse
    subst hs
    have hl : reconfigureLimit st params =
        ([errMsg (pyStr (.valueError (intErrMsg s)) ++ "\n" ++
           format_exc (.valueError (intErrMsg s)))], .ok st) := by
      unfold reconfigureLimit
      rw [hv]
      simp [pyIntBuiltin, hparse]
    refine ⟨hl, ?_⟩
    unfold reconfigure
    rw [hl]
    exact ⟨_, _, rfl, reconfigureDisplay_limit _ _, by simp⟩
  · intro j hj
    subst hj
    have hl : reconfigureLimit st params =
        ([], .error (.typeError intTypeErrMsg)) := by
      unfold reconfigureLimit
      rw [hv]
      rfl
    unfold reconfigure
    rw [hl]

/-- Witness for C5 (amended): a non-parsable string is reported and the
    cell proceeds. -/
theorem C5_witness :
    reconfigureLimit stA [("default_limit", HVal.str "abc")] =
      ([errMsg (pyStr (.valueError (intErrMsg "abc")) ++ "\n" ++
         format_exc (.valueError (intErrMsg "abc")))], .ok stA) :=
  (((C5_default_limit stA [("default_limit", HVal.str "abc")]
      (HVal.str "abc") (by decide)).2.2.1) "abc" rfl (by decide)).1

/-! ## C6: the `display_mode` parameter -/

/-- Whether an optional directive value is a JSON object. -/
def isJobj : Option HVal → Bool
  | some (.jobj _) => true
  | _ => false

/-- Whether a directive value is a legal `display_mode`. -/
def displayOk : HVal → Bool
  | .str s => s = "b" || s = "e" || s = "be"
  | _ => false

/-- The string carried by a string value. -/
def hvStr : HVal → String
  | .str s => s
  | _ => ""

/-- Counterexample to C6 as stated: in a directive set whose
    `default_limit` is a JSON object, the `TypeError` raised first aborts
    `reconfigure`, so a legal `display_mode` value "b" is neither applied
    nor reported about. -/
theorem C6_counterexample :
    reconfigure stA
      [("default_limit", HVal.jobj "\x7b\x7d"), ("display_mode", HVal.str "b")] =
      ([], .error (.typeError intTypeErrMsg)) := by decide

/-- C6 (amended): provided the directive set's `default_limit` (if present)
    is not a JSON object, a `display_mode` value among "b", "e", "be"
    updates the stored mode to it, and any other value leaves the stored
    mode unchanged and reports the fixed error message. -/
theorem C6_display_mode (st : KState) (params : Headers) (v : HVal)
    (hv : dictGet params "display_mode" = some v)
    (hdl : isJobj (dictGet params "default_limit") = false) :
    ∃ msgs1 st1,
      reconfigureLimit st params = (msgs1, .ok st1) ∧
      st1.display_mode = st.display_mode ∧
      reconfigure st params =
        (if displayOk v then (msgs1, .ok { st1 with display_mode := hvStr v })
         else (msgs1 ++ [errMsg invalidDisplayMsg], .ok st1)) := by
  have hlim : ∃ msgs1 st1,
      reconfigureLimit st params = (msgs1, .ok st1) ∧
      st1.display_mode = st.display_mode := by
    cases hd : dictGet params "default_limit" with
    | none => exact ⟨[], st, by simp [reconfigureLimit, hd], rfl⟩
    | some w =>
      cases w with
      | str s =>
        cases hp : pyIntOfString s with
        | none =>
          refine ⟨[errMsg (pyStr (.valueError (intErrMsg s)) ++ "\n" ++
            format_exc (.valueError (intErrMsg s)))], st, ?_, rfl⟩
          simp [reconfigureLimit, hd, pyIntBuiltin, hp]
        | some n =>
          refine ⟨[infoMsg (setLimitMsg n)],
            { st with default_limit := n }, ?_, rfl⟩
          simp [reconfigureLimit, hd, pyIntBuiltin, hp]
      | int n =>
        refine ⟨[infoMsg (setLimitMsg n)],
          { st with default_limit := n }, ?_, rfl⟩
        simp [reconfigureLimit, hd, pyIntBuiltin]
      | jobj j => rw [hd] at hdl; exact Bool.noConfusion hdl
  obtain ⟨msgs1, st1, h1, h2⟩ := hlim
  refine ⟨msgs1, st1, h1, h2, ?_⟩
  unfold reconfigure
  rw [h1]
  unfold reconfigureDisplay
  rw [hv]
  cases v with
  | str s =>
    by_cases hs : (s = "b" || s = "e" || s = "be") = true
    · simp [displayOk, hvStr, hs]
    · simp only [Bool.not_eq_true] at hs
      simp [displayOk, hvStr, hs]
  | int n => simp [displayOk]
  | jobj r => simp [displayOk]

/-- Witness for C6 (amended): a legal value "e" is applied. -/
theorem C6_witness :
    reconfigure stA [("display_mode", HVal.str "e")] =
      ([], .ok { stA with display_mode := "e" }) := by
  obtain ⟨msgs1, st1, h1, _, h3⟩ :=
    C6_display_mode stA [("display_mode", HVal.str "e")] (HVal.str "e")
      (by decide) (by decide)
  have hm : msgs1 = [] ∧ st1 = stA := by
    have : reconfigureLimit stA [("display_mode", HVal.str "e")] =
        ([], .ok stA) := by decide
    rw [this] at h1
    exact ⟨congrArg Prod.fst h1.symm, by
      have := congrArg Prod.snd h1
      simpa using this.symm⟩
  obtain ⟨hm1, hm2⟩ := hm
  subst hm1; subst hm2
  simpa [displayOk, hvStr] using h3

/-! ## C7: directive value parsing -/

/-- Counterexample to C7 as stated: in the legal directive line
    `$$ a=1$2` the dollar sign of the value is removed before parsing, so
    the key maps to the integer 12 rather than to the trimmed string
    "1$2". -/
theorem C7_counterexample :
    parse_code stA "$$ a=1$2" =
      ([], .ok ⟨stA, [("a", HVal.int 12)], ""⟩) ∧
    HVal.int 12 ≠ HVal.str "1$2" := by
  constructor
  · decide
  · decide

/-- C7 (amended): every dollar sign is first removed from the whole
    directive line; the remainder must split on "=" into exactly a key and
    a value; the trimmed key then maps to the JSON-parsed object when the
    trimmed value starts with a brace, else to the integer when `int()`
    accepts the value, else to the trimmed value string. -/
theorem C7_directive_parsing (l : String) (rest : List String) (b : Headers)
    (sql : String) (k v : String)
    (hd : strStarts (pyStrip l) "$$" = true)
    (hsplit : strSplitCh '=' (removeDollar (pyStrip l)) = [k, v]) :
    parseLines (l :: rest) true b sql =
      parseLines rest true
        (dictInsert b (pyStrip k) (parseValue (pyStrip v))) sql ∧
    parseValue (pyStrip v) =
      (if strStarts (pyStrip v) "\x7b" then HVal.jobj (pyStrip v)
       else
         match pyIntOfString (pyStrip v) with
         | some n => HVal.int n
         | none => HVal.str (pyStrip v)) := by
  constructor
  · simp only [parseLines, hd, if_true, parseDirective, hsplit]
  · unfold parseValue json_loads
    rfl

/-- Witness for C7 (amended) at a concrete directive line. -/
theorem C7_witness :
    parseLines ["$$ n=5"] true [] "" =
      parseLines [] true
        (dictInsert [] (pyStrip " n") (parseValue (pyStrip "5"))) "" ∧
    parseValue (pyStrip "5") =
      (if strStarts (pyStrip "5") "\x7b" then HVal.jobj (pyStrip "5")
       else
         match pyIntOfString (pyStrip "5") with
         | some n => HVal.int n
         | none => HVal.str (pyStrip "5")) :=
  C7_directive_parsing "$$ n=5" [] [] "" " n" "5" (by decide) (by decide)

/-! ## C8: the SQL body produced by `parse_code` -/

/-- The lines of a cell that contribute SQL text: stripped lines that are
    neither directives nor comment-only lines. -/
def keptOf (ls : List String) : List String :=
  (ls.map pyStrip).filter (fun l => !strStarts l "$$" && !strStarts l "--")

/-- The way the loop joins kept lines: each is preceded by one space. -/
def joinSp : List String → String
  | [] => ""
  | x :: xs => " " ++ x ++ joinSp xs

def keptLines (code : String) : List String :=
  keptOf (strSplitCh '\n' (pyStrip code))

/-- The SQL body as the specification words it: directive lines removed,
    comment-only lines skipped, the rest joined, surrounding whitespace
    trimmed, and one trailing semicolon stripped. -/
def sqlBodySpec (code : String) : String :=
  stripSemi (pyStrip (joinWith " " (keptLines code)))

theorem str_append_assoc (a b c : String) : a ++ b ++ c = a ++ (b ++ c) :=
  String.ext (by simp [String.data_append, List.append_assoc])

/-- On success, the loop's raw SQL text is the accumulator followed by the
    space-prefixed kept lines. -/
theorem parseLines_sqlRaw :
    ∀ (ls : List String) (b : Bool) (h : Headers) (acc : String)
      (h2 : Headers) (sqlRaw : String),
      parseLines ls b h acc = .ok (h2, sqlRaw) →
      sqlRaw = acc ++ joinSp (keptOf ls) := by
  intro ls
  induction ls with
  | nil =>
    intro b h acc h2 sqlRaw hp
    simp only [parseLines, Except.ok.injEq, Prod.mk.injEq] at hp
    simp [keptOf, joinSp, hp.2.symm, String.append_empty]
  | cons l0 ls ih =>
    intro b h acc h2 sqlRaw hp
    by_cases hd : strStarts (pyStrip l0) "$$" = true
    · cases b with
      | false => simp [parseLines, hd] at hp
      | true =>
        rw [show parseLines (l0 :: ls) true h acc =
            (match parseDirective (pyStrip l0) with
             | .ok (k, v) => parseLines ls true (dictInsert h k v) acc
             | .error e => .error e) by simp [parseLines, hd]] at hp
        cases hpd : parseDirective (pyStrip l0) with
        | error e => rw [hpd] at hp; exact absurd hp (by simp)
        | ok kv =>
          rw [hpd] at hp
          have := ih true (dictInsert h kv.1 kv.2) acc h2 sqlRaw (by
            cases kv; exact hp)
          simpa [keptOf, hd] using this
    · simp only [Bool.not_eq_true] at hd
      rw [show parseLines (l0 :: ls) b h acc =
          parseLines ls false h
            (if strStarts (pyStrip l0) "--" then acc
             else acc ++ " " ++ pyStrip l0) by simp [parseLines, hd]] at hp
      by_cases hc : strStarts (pyStrip l0) "--" = true
      · rw [if_pos hc] at hp
        have := ih false h acc h2 sqlRaw hp
        simpa [keptOf, hd, hc] using this
      · simp only [Bool.not_eq_true] at hc
        rw [if_neg (by simp [hc])] at hp
        have := ih false h (acc ++ " " ++ pyStrip l0) h2 sqlRaw hp
        rw [this]
        simp [keptOf, hd, hc, joinSp, str_append_assoc]

/-- The space-prefixed join strips to the same text as the single-space
    intercalation the specification describes. -/
theorem pyStrip_space (s : String) : pyStrip (" " ++ s) = pyStrip s := by
  unfold pyStrip
  have h : (" " ++ s).data = ' ' :: s.data := by
    simp [String.data_append]
  rw [h]
  have h2 : trimL (' ' :: s.data) = trimL s.data := by
    simp [trimL, List.dropWhile]
    rfl
  rw [h2]

theorem joinSp_eq :
    ∀ (xs : List String) (x : String),
      joinSp (x :: xs) = " " ++ joinWith " " (x :: xs) := by
  intro xs
  induction xs with
  | nil =>
    intro x
    simp [joinSp, joinWith, String.append_empty]
  | cons y ys ih =>
    intro x
    show " " ++ x ++ joinSp (y :: ys) = " " ++ joinWith " " (x :: y :: ys)
    rw [ih y]
    apply String.ext
    simp [joinWith, String.data_append, List.append_assoc]

theorem pyStrip_joinSp (xs : List String) :
    pyStrip (joinSp xs) = pyStrip (joinWith " " xs) := by
  cases xs with
  | nil => rfl
  | cons x xs => rw [joinSp_eq xs x, pyStrip_space]

/-- C8: the SQL body returned by `parse_code` has all directive lines
    removed, all comment-only `--` lines skipped, surrounding whitespace
    trimmed, and a single trailing semicolon stripped if present. -/
theorem C8_sql_body (st : KState) (code : String) (msgs : List Msg)
    (out : ParseOut) (h : parse_code st code = (msgs, .ok out)) :
    out.sql = sqlBodySpec code := by
  unfold parse_code at h
  cases hp : parseLines (strSplitCh '\n' (pyStrip code)) true [] "" with
  | error e =>
    rw [hp] at h
    exact absurd h (by simp)
  | ok pr =>
    obtain ⟨h0, sqlRaw⟩ := pr
    rw [hp] at h
    simp only [] at h
    have hout : out.sql = stripSemi (pyStrip sqlRaw) := by
      split at h
      · have := (Prod.mk.injEq _ _ _ _).mp h
        have h2 := this.2
        have h3 := Except.ok.inj h2
        rw [h3.symm]
      · exact absurd h (by simp)
    have hs := parseLines_sqlRaw _ _ _ _ _ _ hp
    rw [hout, hs, String.empty_append, pyStrip_joinSp]
    rfl

/-- Witness for C8 at a concrete cell. -/
theorem C8_witness :
    (⟨stA, [], "select 1"⟩ : ParseOut).sql = sqlBodySpec "select 1;\n-- note" :=
  C8_sql_body stA "select 1;\n-- note" [] ⟨stA, [], "select 1"⟩ (by decide)

/-! ## C9: connection creation -/

/-- A failing external layer: every probe raises an operational error. -/
def envFail : Env :=
  ⟨fun _ => some (.operationalError "no route to host"),
   fun _ _ => none, fun _ _ => .ok "df"⟩

def oldConn : Conn := ⟨"hive://old", []⟩

def stOld : KState := ⟨some oldConn, 20, "be", none⟩

/-- Counterexample to C9 as stated: when the probe fails, the stored handle
    has already been replaced by the new engine, so the previously stored
    connection does not remain the active handle. -/
theorem C9_counterexample :
    (create_conn envFail stOld "hive://new" []).2.1.last_conn =
      some ⟨"hive://new", []⟩ ∧
    (create_conn envFail stOld "hive://new" []).2.2 =
      .error (.operationalError "no route to host") ∧
    (create_conn envFail stOld "hive://new" []).2.1.last_conn ≠
      some oldConn := by
  refine ⟨by decide, by decide, by decide⟩

/-- C9 (amended): `create_conn` echoes the construction call first and
    replaces the stored handle with the new engine before probing; on a
    successful probe it also emits the confirmation message; on a probe
    failure the exception propagates while the new (unprobed) engine — not
    the previous handle — remains stored. -/
theorem C9_create_conn (env : Env) (st : KState) (url : String)
    (kwargs : Headers) :
    (create_conn env st url kwargs).2.1 =
      { st with last_conn := some ⟨url, kwargs⟩ } ∧
    (create_conn env st url kwargs).1.head? =
      some (infoMsg (echoText url kwargs)) ∧
    (env.connectErr ⟨url, kwargs⟩ = none →
      create_conn env st url kwargs =
        ([infoMsg (echoText url kwargs), infoMsg connEstablishedMsg],
         { st with last_conn := some ⟨url, kwargs⟩ }, .ok ())) ∧
    (∀ e, env.connectErr ⟨url, kwargs⟩ = some e →
      create_conn env st url kwargs =
        ([infoMsg (echoText url kwargs)],
         { st with last_conn := some ⟨url, kwargs⟩ }, .error e)) := by
  refine ⟨?_, ?_, ?_, ?_⟩
  · simp only [create_conn]
    cases h : env.connectErr ⟨url, kwargs⟩ <;> simp [h]
  · simp only [create_conn]
    cases h : env.connectErr ⟨url, kwargs⟩ <;> simp [h]
  · intro hok
    simp [create_conn, hok]
  · intro e he
    simp [create_conn, he]

/-- Witness for C9 (amended) at a failing probe. -/
theorem C9_witness :
    create_conn envFail stOld "hive://new" [] =
      ([infoMsg (echoText "hive://new" [])],
       { stOld with last_conn := some ⟨"hive://new", []⟩ },
       .error (.operationalError "no route to host")) :=
  (C9_create_conn envFail stOld "hive://new" []).2.2.2
    (.operationalError "no route to host") rfl

/-! ## C10: cells whose parsed SQL body is empty -/

/-- A fresh session that already holds a connection. -/
def connW : Conn := ⟨"hive://h", []⟩

def stConn : KState := ⟨some connW, 20, "be", none⟩

theorem dictGet_none_of_mem_false (d : Headers) (k : String)
    (h : dictMem d k = false) : dictGet d k = none := by
  unfold dictMem at h
  unfold dictGet
  cases hf : d.find? (fun kv => kv.1 = k) with
  | none => rfl
  | some kv =>
    exfalso
    have hmem := List.mem_of_find?_eq_some hf
    have hpred := List.find?_some hf
    have hany : d.any (fun kv => kv.1 = k) = true := by
      apply List.any_eq_true.mpr
      exact ⟨kv, hmem, hpred⟩
    rw [h] at hany
    exact Bool.noConfusion hany

/-- C10: for a successfully parsed cell whose SQL body is empty and whose
    directives create no connection: with no stored connection the result
    is the error envelope carrying the no-connection usage hint; with a
    stored connection the result is the ok envelope with empty payload and
    user expressions; in both cases no SQL is classified, rewritten or
    executed. -/
theorem C10_empty_sql (env : Env) (st : KState) (ec : Nat) (code : String)
    (msgs : List Msg) (out : ParseOut)
    (hp : parse_code st code = (msgs, .ok out))
    (hempty : out.sql = "")
    (hnourl : dictMem out.pyhiveconf "url" = false) :
    (out.st.last_conn = none →
      do_execute env st ec code =
        ⟨out.st, msgs ++ [errMsg error_con_not_created], [], errEnvelope ec⟩) ∧
    (∀ c, out.st.last_conn = some c →
      do_execute env st ec code = ⟨out.st, msgs, [], okEnvelope ec⟩) := by
  have hurl : dictGet out.pyhiveconf "url" = none :=
    dictGet_none_of_mem_false _ _ hnourl
  have htry : do_execute_try env st ec code =
      (match out.st.last_conn with
       | none => ⟨out.st, msgs ++ [], [], .error .connectionNotCreated⟩
       | some _ => ⟨out.st, msgs ++ [], [], .ok (okEnvelope ec)⟩) := by
    unfold do_execute_try
    rw [hp]
    simp only [hurl, hempty]
    cases out.st.last_conn <;> simp
  constructor
  · intro hnone
    rw [hnone] at htry
    unfold do_execute
    rw [htry]
    simp [excMessage]
  · intro c hsome
    rw [hsome] at htry
    unfold do_execute
    rw [htry]
    simp

/-- Witness for C10: a comment-only cell with a stored connection. -/
theorem C10_witness :
    do_execute envW stConn 3 "-- c" = ⟨stConn, [], [], okEnvelope 3⟩ :=
  (C10_empty_sql envW stConn 3 "-- c" [] ⟨stConn, [], ""⟩ (by decide) rfl
    (by decide)).2 connW rfl

end HiveQL
